import Mathlib

/-!
Shallow embedding of the Cloudflare Worker shopping-list backend
(`src/index.ts`): a single `fetch` handler that routes one HTTP request to
one MongoDB Realm collection operation and shapes the outcome into a JSON
response.

JavaScript runtime values that can appear in request bodies and stored
documents are modelled by `JsValue` (with `undef` standing for both an
absent object field and the value `undefined`).  External calls (Realm
login, collection handle acquisition, find/insert/update/delete) are
modelled by oracles in `Env`: `none` means the call succeeds, `some e`
means it throws an exception whose `.message` is `e`.  The collection
itself is a list of documents threaded through the handler.  An exception
that no `try/catch` of the handler intercepts surfaces as `Except.error`
in the result — that is, an unhandled fault propagating to the platform.
-/

namespace Worker

/-- A JavaScript value as far as this worker manipulates them: `undef` is
`undefined` (also used for an absent field of a parsed JSON body). -/
inductive JsValue where
  | undef
  | jnull
  | jbool (b : Bool)
  | jnum (n : Int)
  | jstr (s : String)
deriving DecidableEq, Repr

/-- JavaScript truthiness: `undefined`, `null`, `false`, `0` and `""` are
falsy, everything else is truthy. -/
def JsValue.truthy : JsValue → Bool
  | .undef => false
  | .jnull => false
  | .jbool b => b
  | .jnum n => n != 0
  | .jstr s => s != ""

/-- JavaScript `a || b`: returns `a` when `a` is truthy, else `b`. -/
def JsValue.jsOr (a b : JsValue) : JsValue :=
  if a.truthy then a else b

/-- JavaScript `!a`: the boolean negation of `a`'s truthiness. -/
def JsValue.jsNot (a : JsValue) : Bool :=
  !a.truthy

/-- Whether a runtime value is a boolean. -/
def JsValue.isBool : JsValue → Bool
  | .jbool _ => true
  | _ => false

/-- One stored document of the `cloudflare.shopping_list` collection.  The
TypeScript interface declares `name : string`, `purchased : boolean`,
`quantity : string`, but nothing at runtime enforces those types, so the
fields hold arbitrary `JsValue`s; `_id` is the remote-assigned identifier
(modelled as its 24-character hex string). -/
structure ShoppingListDoc where
  _id : String
  name : JsValue
  purchased : JsValue
  quantity : JsValue
deriving DecidableEq, Repr

/-- The parsed JSON body, projected on the three fields the worker reads
(`const {name, purchased, quantity} = await req.json()`); a field absent
from the body destructures to `undefined`. -/
structure Body where
  name : JsValue
  purchased : JsValue
  quantity : JsValue
deriving DecidableEq, Repr

/-- The parts of the incoming HTTP request the handler reads.  `idParam`
is `url.searchParams.get('id')` (`none` when absent), `authHeader` is
`req.headers.get('authorization')` (`none` when absent), and `body` is
the outcome of `await req.json()` (`Except.error e` when parsing throws
an exception with message `e`). -/
structure Request where
  method : String
  pathname : String
  idParam : Option String
  authHeader : Option String
  body : Except String Body
deriving Repr

/-- Oracles for the external Realm/MongoDB calls: `none` means the call
succeeds, `some e` that it throws an exception with message `e`.
`loginErr` covers `App.logIn` together with `user.mongoClient` (both sit
in the same `try`), `collectionErr` covers
`client.db('cloudflare').collection('shopping_list')`, and `freshId` is
the identifier the remote store assigns to an inserted document. -/
structure Env where
  loginErr : Option String
  collectionErr : Option String
  findErr : Option String
  insertErr : Option String
  updateErr : Option String
  deleteErr : Option String
  freshId : String
deriving Repr

/-- Success payloads the worker replies with. -/
inductive Payload where
  | pdoc (d : ShoppingListDoc)
  | pnull
  | pdocs (l : List ShoppingListDoc)
  | pinsert (insertedId : String)
  | pupdate (matchedCount modifiedCount : Nat)
  | pdelete (deletedCount : Nat)
deriving DecidableEq, Repr

/-- An HTTP response: status code plus the JSON envelope
`{success, payload}` / `{success, error}`. -/
structure Response where
  status : Nat
  success : Bool
  payload : Option Payload
  error : Option String
deriving DecidableEq, Repr

/-- Modelled from the spec: `utils.reply` of `src/utils.ts`, which is not
in the snapshot.  Spec §4.2: the success formatter takes any payload and
returns an HTTP 200 response with body `{ success: true, payload }`. -/
def reply (p : Payload) : Response :=
  ⟨200, true, some p, none⟩

/-- Modelled from the spec: `utils.toError` of `src/utils.ts`, which is
not in the snapshot.  Spec §4.2: the error formatter takes a message and
a status code and returns a response with that status and body
`{ success: false, error: message }`. -/
def toError (msg : String) (status : Nat) : Response :=
  ⟨status, false, none, some msg⟩

/-- The remote calls a request makes, in order; a call is recorded when
it is issued (whether or not its oracle makes it throw). -/
inductive RemoteCall where
  | loginC
  | findC
  | insertC
  | updateC
  | deleteC
deriving DecidableEq, Repr

/-- Outcome of one `fetch` invocation: the response (or, as
`Except.error`, an exception no handler caught, propagating to the
platform), the collection state after the request, and the remote calls
issued. -/
structure FetchResult where
  outcome : Except String Response
  state : List ShoppingListDoc
  calls : List RemoteCall
deriving Repr

/-- JavaScript `path.replace(/[\x2f]$/, '')`: strip one trailing slash
(phrased over the character list so that it evaluates by reduction). -/
def stripTrailingSlash (p : String) : String :=
  if p.data.getLast? = some '/' then ⟨p.data.dropLast⟩ else p

/-- Hex digit test for `ObjectId` validity. -/
def isHexChar (c : Char) : Bool :=
  c.isDigit || ('a' ≤ c && c ≤ 'f') || ('A' ≤ c && c ≤ 'F')

/-- Modelled from the spec and the `realm-web` BSON library (external to
this repository): `new ObjectId(s)` succeeds exactly on a well-formed
identifier — canonically a 24-character hex string — and throws
otherwise. -/
def parseObjectId (s : String) : Option String :=
  if s.data.length == 24 && s.data.all isHexChar then some s else none

/-- Modelled from the spec: the message of the exception the external
BSON `ObjectId` constructor throws on a malformed identifier.  Its exact
text is library-internal; only that it is nonempty matters here. -/
def objectIdErrMsg : String :=
  "Argument passed in must be a string of 24 hex characters"

/-- `collection.findOne({_id})`: the first document with the identifier. -/
def findOneById (st : List ShoppingListDoc) (oid : String) : Option ShoppingListDoc :=
  match st with
  | [] => none
  | d :: rest => if d._id = oid then some d else findOneById rest oid

/-- Apply one `$set` entry to a document.  The three declared fields are
assigned; any other key (in particular `_id`, which the real store would
refuse to modify) is left alone — no code path of this model sets `_id`
to a new value. -/
def applySetField (d : ShoppingListDoc) (kv : String × JsValue) : ShoppingListDoc :=
  if kv.1 = "name" then { d with name := kv.2 }
  else if kv.1 = "purchased" then { d with purchased := kv.2 }
  else if kv.1 = "quantity" then { d with quantity := kv.2 }
  else d

/-- Apply a whole `$set` object (an association list, mirroring a
JavaScript object's ordered keys) to a document. -/
def applySet (d : ShoppingListDoc) (obj : List (String × JsValue)) : ShoppingListDoc :=
  obj.foldl applySetField d

/-- `collection.updateOne({_id}, {$set: obj})`: rewrite the first
document with the identifier; result is (new state, matchedCount,
modifiedCount). -/
def updateOneById (st : List ShoppingListDoc) (oid : String)
    (obj : List (String × JsValue)) : List ShoppingListDoc × Nat × Nat :=
  match st with
  | [] => ([], 0, 0)
  | d :: rest =>
    if d._id = oid then
      let d' := applySet d obj
      (d' :: rest, 1, if d' = d then 0 else 1)
    else
      let r := updateOneById rest oid obj
      (d :: r.1, r.2.1, r.2.2)

/-- `collection.deleteOne({_id})`: remove the first document with the
identifier; result is (new state, deletedCount). -/
def deleteOneById (st : List ShoppingListDoc) (oid : String) :
    List ShoppingListDoc × Nat :=
  match st with
  | [] => ([], 0)
  | d :: rest =>
    if d._id = oid then (rest, 1)
    else
      let r := deleteOneById rest oid
      (d :: r.1, r.2)

/-- Overwrite the value of an already-present key of a JavaScript object
(the assignments `updateObject.name = name` etc. of the PUT branch). -/
def setKey (obj : List (String × JsValue)) (k : String) (v : JsValue) :
    List (String × JsValue) :=
  obj.map (fun kv => if kv.1 = k then (k, v) else kv)

/-- The PUT branch's update object, exactly as the source builds it: the
object literal `{ name, purchased, quantity, _id: undefined }` creates
all four keys unconditionally (absent body fields contribute the value
`undefined`), and each `if (f !== undefined) updateObject.f = f`
reassigns an already-present key. -/
def mkPutUpdateObject (b : Body) : List (String × JsValue) :=
  let o : List (String × JsValue) :=
    [("name", b.name), ("purchased", b.purchased),
     ("quantity", b.quantity), ("_id", JsValue.undef)]
  let o := if b.name ≠ JsValue.undef then setKey o "name" b.name else o
  let o := if b.purchased ≠ JsValue.undef then setKey o "purchased" b.purchased else o
  let o := if b.quantity ≠ JsValue.undef then setKey o "quantity" b.quantity else o
  o

/-- The update object the specification describes for PUT: a partial
update containing only the fields that are not `undefined` in the parsed
body — written from the spec's words, for comparison with
`mkPutUpdateObject`. -/
def specPutUpdateObject (b : Body) : List (String × JsValue) :=
  (if b.name ≠ JsValue.undef then [("name", b.name)] else []) ++
  (if b.purchased ≠ JsValue.undef then [("purchased", b.purchased)] else []) ++
  (if b.quantity ≠ JsValue.undef then [("quantity", b.quantity)] else [])

/-- The 404 message for an unknown path, as the source interpolates it. -/
def unknownPathMsg (path : String) : String :=
  "Unknown \"" ++ path ++ "\" URL; try \"/api/shopping_list\" instead."

/-- The 401 message for a missing `authorization` header. -/
def authMissingMsg : String :=
  "Missing \"authorization\" header; try to add the header \"authorization: REALM_API_KEY\"."

/-- The GET branch: by id when the `id` query parameter is truthy
(nonempty), else the full listing.  `new ObjectId(itemID)` may throw to
the outer catch; `find`/`findOne` may throw to the outer catch. -/
def handleGET (env : Env) (st : List ShoppingListDoc) (itemID : String) :
    FetchResult :=
  if itemID = "" then
    match env.findErr with
    | some e => ⟨.error e, st, [.findC]⟩
    | none => ⟨.ok (reply (.pdocs st)), st, [.findC]⟩
  else
    match parseObjectId itemID with
    | none => ⟨.error objectIdErrMsg, st, []⟩
    | some oid =>
      match env.findErr with
      | some e => ⟨.error e, st, [.findC]⟩
      | none =>
        match findOneById st oid with
        | some d => ⟨.ok (reply (.pdoc d)), st, [.findC]⟩
        | none => ⟨.ok (reply .pnull), st, [.findC]⟩

/-- The POST branch: `req.json()` may throw to the outer catch; the
inserted document gets `purchased: purchased || false` and the
remote-assigned `freshId`. -/
def handlePOST (env : Env) (st : List ShoppingListDoc) (req : Request) :
    FetchResult :=
  match req.body with
  | .error e => ⟨.error e, st, []⟩
  | .ok b =>
    match env.insertErr with
    | some e => ⟨.error e, st, [.insertC]⟩
    | none =>
      let d : ShoppingListDoc :=
        ⟨env.freshId, b.name, JsValue.jsOr b.purchased (.jbool false), b.quantity⟩
      ⟨.ok (reply (.pinsert env.freshId)), st ++ [d], [.insertC]⟩

/-- The PATCH branch, with its inner try/catch: any exception (ObjectId
construction, findOne, updateOne) becomes a 500 "Internal Server Error";
a missing document becomes a 404; otherwise the toggled `purchased` is
written back with `$set`. -/
def handlePATCH (env : Env) (st : List ShoppingListDoc) (itemID : String) :
    FetchResult :=
  match parseObjectId itemID with
  | none => ⟨.ok (toError "Internal Server Error" 500), st, []⟩
  | some oid =>
    match env.findErr with
    | some _ => ⟨.ok (toError "Internal Server Error" 500), st, [.findC]⟩
    | none =>
      match findOneById st oid with
      | some d =>
        let updatedPurchasedValue := JsValue.jsNot d.purchased
        match env.updateErr with
        | some _ => ⟨.ok (toError "Internal Server Error" 500), st, [.findC, .updateC]⟩
        | none =>
          let r := updateOneById st oid [("purchased", .jbool updatedPurchasedValue)]
          ⟨.ok (reply (.pupdate r.2.1 r.2.2)), r.1, [.findC, .updateC]⟩
      | none => ⟨.ok (toError "Document not found" 404), st, [.findC]⟩

/-- The PUT branch, with its inner try/catch: any exception (body parse,
ObjectId construction, updateOne) becomes a 500 "Internal Server Error";
otherwise `updateOne` applies `$set: updateObject`. -/
def handlePUT (env : Env) (st : List ShoppingListDoc) (req : Request)
    (itemID : String) : FetchResult :=
  match req.body with
  | .error _ => ⟨.ok (toError "Internal Server Error" 500), st, []⟩
  | .ok b =>
    let updateObject := mkPutUpdateObject b
    match parseObjectId itemID with
    | none => ⟨.ok (toError "Internal Server Error" 500), st, []⟩
    | some oid =>
      match env.updateErr with
      | some _ => ⟨.ok (toError "Internal Server Error" 500), st, [.updateC]⟩
      | none =>
        let r := updateOneById st oid updateObject
        ⟨.ok (reply (.pupdate r.2.1 r.2.2)), r.1, [.updateC]⟩

/-- The DELETE branch: `new ObjectId(itemID)` and `deleteOne` may throw
to the outer catch. -/
def handleDELETE (env : Env) (st : List ShoppingListDoc) (itemID : String) :
    FetchResult :=
  match parseObjectId itemID with
  | none => ⟨.error objectIdErrMsg, st, []⟩
  | some oid =>
    match env.deleteErr with
    | some e => ⟨.error e, st, [.deleteC]⟩
    | none =>
      let r := deleteOneById st oid
      ⟨.ok (reply (.pdelete r.2)), r.1, [.deleteC]⟩

/-- The body of the outer `try`: exact, case-sensitive dispatch on the
method, falling through to the 405 response. -/
def dispatch (env : Env) (st : List ShoppingListDoc) (req : Request)
    (itemID : String) : FetchResult :=
  if req.method = "GET" then handleGET env st itemID
  else if req.method = "POST" then handlePOST env st req
  else if req.method = "PATCH" then handlePATCH env st itemID
  else if req.method = "PUT" then handlePUT env st req itemID
  else if req.method = "DELETE" then handleDELETE env st itemID
  else ⟨.ok (toError "Method not allowed." 405), st, []⟩

/-- The outer `catch`: an exception escaping the dispatch becomes a 500
whose message is the exception's when nonempty (`err.message ||
'Error with query.'`), else the generic one. -/
def outerWrap (r : FetchResult) : FetchResult :=
  match r.outcome with
  | .ok _ => r
  | .error m =>
    ⟨.ok (toError (if m = "" then "Error with query." else m) 500), r.state, r.calls⟩

/-- The worker's `fetch` handler, check for check in source order: path
(one trailing slash stripped), `authorization` header truthiness, Realm
login (its failure collapsed to one 500 message), collection handle
acquisition (outside every try: its exception propagates), then the
outer try around the method dispatch. -/
def fetch (env : Env) (st : List ShoppingListDoc) (req : Request) :
    FetchResult :=
  let path := stripTrailingSlash req.pathname
  let itemID := req.idParam.getD ""
  if path = "/api/shopping_list" then
    match req.authHeader with
    | none => ⟨.ok (toError authMissingMsg 401), st, []⟩
    | some token =>
      if token = "" then ⟨.ok (toError authMissingMsg 401), st, []⟩
      else
        match env.loginErr with
        | some _ => ⟨.ok (toError "Error with authentication." 500), st, [.loginC]⟩
        | none =>
          match env.collectionErr with
          | some e => ⟨.error e, st, [.loginC]⟩
          | none =>
            let r := outerWrap (dispatch env st req itemID)
            ⟨r.outcome, r.state, .loginC :: r.calls⟩
  else ⟨.ok (toError (unknownPathMsg path) 404), st, []⟩

/-! Concrete data shared by the witnesses and counterexamples below. -/

/-- A well-formed 24-hex-character identifier. -/
def oidA : String := "aaaaaaaaaaaaaaaaaaaaaaaa"

/-- A second well-formed identifier, distinct from `oidA`. -/
def oidB : String := "bbbbbbbbbbbbbbbbbbbbbbbb"

/-- An oracle environment in which every external call succeeds. -/
def envOk : Env := ⟨none, none, none, none, none, none, "cccccccccccccccccccccccc"⟩

/-- A stored document with identifier `oidA`. -/
def docMilk : ShoppingListDoc := ⟨oidA, .jstr "Milk", .jbool false, .jstr "1L"⟩

/-! Helper lemmas. -/

/-- Whether an outcome is a response rather than an escaped exception. -/
def isCaught : Except String Response → Bool
  | .ok _ => true
  | .error _ => false

/-- The outer catch never lets an exception through. -/
theorem outerWrap_isCaught (r : FetchResult) :
    isCaught (outerWrap r).outcome = true := by
  cases r with
  | mk o s c => cases o <;> rfl

/-- On the authenticated happy path, `fetch` is the outer-wrapped method
dispatch prefixed with the login call. -/
theorem fetch_authed (env : Env) (st : List ShoppingListDoc) (req : Request)
    (tok : String)
    (hp : stripTrailingSlash req.pathname = "/api/shopping_list")
    (ha : req.authHeader = some tok) (htok : tok ≠ "")
    (hl : env.loginErr = none) (hc : env.collectionErr = none) :
    fetch env st req =
      ⟨(outerWrap (dispatch env st req (req.idParam.getD ""))).outcome,
       (outerWrap (dispatch env st req (req.idParam.getD ""))).state,
       .loginC :: (outerWrap (dispatch env st req (req.idParam.getD ""))).calls⟩ := by
  unfold fetch
  simp [hp, ha, htok, hl, hc]

/-- Dispatch reduces to the GET handler when the method is `GET`. -/
theorem dispatch_get (env : Env) (st : List ShoppingListDoc) (req : Request)
    (itemID : String) (hm : req.method = "GET") :
    dispatch env st req itemID = handleGET env st itemID := by
  unfold dispatch; rw [hm]; rfl

/-- Dispatch reduces to the POST handler when the method is `POST`. -/
theorem dispatch_post (env : Env) (st : List ShoppingListDoc) (req : Request)
    (itemID : String) (hm : req.method = "POST") :
    dispatch env st req itemID = handlePOST env st req := by
  unfold dispatch; rw [hm]; rfl

/-- Dispatch reduces to the PATCH handler when the method is `PATCH`. -/
theorem dispatch_patch (env : Env) (st : List ShoppingListDoc) (req : Request)
    (itemID : String) (hm : req.method = "PATCH") :
    dispatch env st req itemID = handlePATCH env st itemID := by
  unfold dispatch; rw [hm]; rfl

/-- Dispatch reduces to the PUT handler when the method is `PUT`. -/
theorem dispatch_put (env : Env) (st : List ShoppingListDoc) (req : Request)
    (itemID : String) (hm : req.method = "PUT") :
    dispatch env st req itemID = handlePUT env st req itemID := by
  unfold dispatch; rw [hm]; rfl

/-- Dispatch reduces to the DELETE handler when the method is `DELETE`. -/
theorem dispatch_delete (env : Env) (st : List ShoppingListDoc) (req : Request)
    (itemID : String) (hm : req.method = "DELETE") :
    dispatch env st req itemID = handleDELETE env st itemID := by
  unfold dispatch; rw [hm]; rfl

/-! Claim theorems. -/

/-- C8: a request whose path, after stripping a trailing slash, is not
exactly `/api/shopping_list` gets a 404 response carrying the
expected-path hint, with the collection state untouched and no remote
call made — regardless of method and of the `authorization` header. -/
theorem c8_unknown_path (env : Env) (st : List ShoppingListDoc) (req : Request)
    (h : stripTrailingSlash req.pathname ≠ "/api/shopping_list") :
    fetch env st req =
      ⟨.ok (toError (unknownPathMsg (stripTrailingSlash req.pathname)) 404),
       st, []⟩ := by
  unfold fetch
  simp [h]

/-- C8 witness: the 404 path response at the concrete request
`OPTIONS /api/other/` with no `authorization` header. -/
theorem c8_unknown_path_witness :
    fetch envOk [docMilk] ⟨"OPTIONS", "/api/other/", none, none, .error "x"⟩ =
      ⟨.ok (toError (unknownPathMsg "/api/other") 404), [docMilk], []⟩ := by
  have h := c8_unknown_path envOk [docMilk]
    ⟨"OPTIONS", "/api/other/", none, none, .error "x"⟩ (by decide)
  simpa using h

/-- C7: on the valid path, a missing or empty `authorization` header
yields a 401 with no remote call made; a present nonempty header whose
Realm login fails yields a 500 with the single message
"Error with authentication.", whatever the underlying login exception
was. -/
theorem c7_auth_errors (env : Env) (st : List ShoppingListDoc) (req : Request)
    (hp : stripTrailingSlash req.pathname = "/api/shopping_list") :
    (req.authHeader = none →
      fetch env st req = ⟨.ok (toError authMissingMsg 401), st, []⟩) ∧
    (req.authHeader = some "" →
      fetch env st req = ⟨.ok (toError authMissingMsg 401), st, []⟩) ∧
    (∀ tok e, req.authHeader = some tok → tok ≠ "" → env.loginErr = some e →
      fetch env st req =
        ⟨.ok (toError "Error with authentication." 500), st, [.loginC]⟩) := by
  refine ⟨?_, ?_, ?_⟩
  · intro ha; unfold fetch; simp [hp, ha]
  · intro ha; unfold fetch; simp [hp, ha]
  · intro tok e ha htok hl; unfold fetch; simp [hp, ha, htok, hl]

/-- C7 witness: the three authentication outcomes at concrete requests —
absent header, empty header, and a login rejected by the remote
service. -/
theorem c7_auth_errors_witness :
    (fetch envOk [] ⟨"GET", "/api/shopping_list", none, none, .error "x"⟩ =
      ⟨.ok (toError authMissingMsg 401), [], []⟩) ∧
    (fetch envOk [] ⟨"GET", "/api/shopping_list", none, some "", .error "x"⟩ =
      ⟨.ok (toError authMissingMsg 401), [], []⟩) ∧
    (fetch ⟨some "invalid session", none, none, none, none, none, "c"⟩ []
        ⟨"GET", "/api/shopping_list", none, some "badkey", .error "x"⟩ =
      ⟨.ok (toError "Error with authentication." 500), [], [.loginC]⟩) :=
  ⟨(c7_auth_errors envOk []
      ⟨"GET", "/api/shopping_list", none, none, .error "x"⟩ (by decide)).1 rfl,
   (c7_auth_errors envOk []
      ⟨"GET", "/api/shopping_list", none, some "", .error "x"⟩ (by decide)).2.1 rfl,
   (c7_auth_errors ⟨some "invalid session", none, none, none, none, none, "c"⟩ []
      ⟨"GET", "/api/shopping_list", none, some "badkey", .error "x"⟩
      (by decide)).2.2 "badkey" "invalid session" rfl (by decide) rfl⟩

/-- C9: an authenticated request on the valid path whose method is none
of GET, POST, PATCH, PUT, DELETE (compared exactly and case-sensitively)
gets a 405 "Method not allowed." response, with the collection state
untouched and no collection call made (only the login call). -/
theorem c9_method_not_allowed (env : Env) (st : List ShoppingListDoc)
    (req : Request) (tok : String)
    (hp : stripTrailingSlash req.pathname = "/api/shopping_list")
    (ha : req.authHeader = some tok) (htok : tok ≠ "")
    (hl : env.loginErr = none) (hc : env.collectionErr = none)
    (hm : req.method ∉ (["GET", "POST", "PATCH", "PUT", "DELETE"] : List String)) :
    fetch env st req = ⟨.ok (toError "Method not allowed." 405), st, [.loginC]⟩ := by
  simp only [List.mem_cons, List.mem_singleton, not_or] at hm
  obtain ⟨h1, h2, h3, h4, h5, -⟩ := hm
  rw [fetch_authed env st req tok hp ha htok hl hc]
  unfold dispatch outerWrap
  simp [h1, h2, h3, h4, h5]

/-- C9 witness: a lowercase `get` on the valid path is rejected with 405
even though the uppercase method would be served. -/
theorem c9_method_not_allowed_witness :
    fetch envOk [docMilk] ⟨"get", "/api/shopping_list", none, some "key", .error "x"⟩ =
      ⟨.ok (toError "Method not allowed." 405), [docMilk], [.loginC]⟩ :=
  c9_method_not_allowed envOk [docMilk]
    ⟨"get", "/api/shopping_list", none, some "key", .error "x"⟩ "key"
    (by decide) rfl (by decide) rfl rfl (by decide)

/-- C2 counterexample: an exception thrown while acquiring the collection
handle (`client.db('cloudflare').collection('shopping_list')`, which sits
before the outer `try`) is not converted to a 500 response — it escapes
`fetch` as an unhandled fault, refuting both "no exception ever
propagates to the platform" and the coverage of the collection handle
acquisition by the outer catch. -/
theorem c2_collection_error_uncaught :
    (fetch ⟨none, some "boom", none, none, none, none, "c"⟩ []
      ⟨"GET", "/api/shopping_list", none, some "key", .error "x"⟩).outcome =
      Except.error "boom" := rfl

/-- C2 amended: provided the collection handle acquisition does not throw
(it sits before the outer `try`), no exception escapes `fetch`; and any
exception raised inside the outer try is converted to a 500 whose
message is the exception's when nonempty and "Error with query."
otherwise — stated once for an arbitrary exception escaping the dispatch
body, and again for each named site: GET's `find` (on the listing and
the by-id lookup alike), POST's body parse, POST's `insert`, and
DELETE's `delete`. -/
theorem c2_outer_catch_amended :
    (∀ (env : Env) (st : List ShoppingListDoc) (req : Request),
      env.collectionErr = none → isCaught (fetch env st req).outcome = true) ∧
    (∀ (env : Env) (st : List ShoppingListDoc) (req : Request) (tok m : String),
      stripTrailingSlash req.pathname = "/api/shopping_list" →
      req.authHeader = some tok → tok ≠ "" →
      env.loginErr = none → env.collectionErr = none →
      (dispatch env st req (req.idParam.getD "")).outcome = Except.error m →
      (fetch env st req).outcome =
        .ok (toError (if m = "" then "Error with query." else m) 500)) ∧
    (∀ (env : Env) (st : List ShoppingListDoc) (req : Request) (tok e : String),
      stripTrailingSlash req.pathname = "/api/shopping_list" →
      req.authHeader = some tok → tok ≠ "" →
      env.loginErr = none → env.collectionErr = none →
      req.method = "GET" → env.findErr = some e →
      (req.idParam = none ∨
        (∃ oid, parseObjectId (req.idParam.getD "") = some oid)) →
      (fetch env st req).outcome =
        .ok (toError (if e = "" then "Error with query." else e) 500)) ∧
    (∀ (env : Env) (st : List ShoppingListDoc) (req : Request) (tok e : String),
      stripTrailingSlash req.pathname = "/api/shopping_list" →
      req.authHeader = some tok → tok ≠ "" →
      env.loginErr = none → env.collectionErr = none →
      req.method = "POST" → req.body = .error e →
      (fetch env st req).outcome =
        .ok (toError (if e = "" then "Error with query." else e) 500)) ∧
    (∀ (env : Env) (st : List ShoppingListDoc) (req : Request) (tok e : String)
      (b : Body),
      stripTrailingSlash req.pathname = "/api/shopping_list" →
      req.authHeader = some tok → tok ≠ "" →
      env.loginErr = none → env.collectionErr = none →
      req.method = "POST" → req.body = .ok b → env.insertErr = some e →
      (fetch env st req).outcome =
        .ok (toError (if e = "" then "Error with query." else e) 500)) ∧
    (∀ (env : Env) (st : List ShoppingListDoc) (req : Request) (tok oid e : String),
      stripTrailingSlash req.pathname = "/api/shopping_list" →
      req.authHeader = some tok → tok ≠ "" →
      env.loginErr = none → env.collectionErr = none →
      req.method = "DELETE" → parseObjectId (req.idParam.getD "") = some oid →
      env.deleteErr = some e →
      (fetch env st req).outcome =
        .ok (toError (if e = "" then "Error with query." else e) 500)) := by
  refine ⟨?_, ?_, ?_, ?_, ?_, ?_⟩
  · intro env st req hc
    unfold fetch
    by_cases hp : stripTrailingSlash req.pathname = "/api/shopping_list"
    · simp only [hp, if_pos rfl]
      cases ha : req.authHeader with
      | none => rfl
      | some tok =>
        by_cases htok : tok = ""
        · simp [htok, isCaught]
        · simp only [htok, if_neg htok]
          cases hl : env.loginErr with
          | some _ => rfl
          | none => rw [hc]; exact outerWrap_isCaught _
    · simp [hp, isCaught]
  · intro env st req tok m hp ha htok hl hc hdm
    rw [fetch_authed env st req tok hp ha htok hl hc]
    unfold outerWrap
    simp [hdm]
  · intro env st req tok e hp ha htok hl hc hm hf hid
    rw [fetch_authed env st req tok hp ha htok hl hc,
        dispatch_get env st req _ hm]
    unfold handleGET outerWrap
    rcases hid with hid | ⟨oid, hid⟩
    · simp [hid, hf]
    · have hne : req.idParam.getD "" ≠ "" := by
        intro h0
        rw [h0] at hid
        have h1 : parseObjectId "" = none := by decide
        rw [h1] at hid
        exact Option.noConfusion hid
      simp [hne, hid, hf]
  · intro env st req tok e hp ha htok hl hc hm hb
    rw [fetch_authed env st req tok hp ha htok hl hc,
        dispatch_post env st req _ hm]
    unfold handlePOST outerWrap
    simp [hb]
  · intro env st req tok e b hp ha htok hl hc hm hb hi
    rw [fetch_authed env st req tok hp ha htok hl hc,
        dispatch_post env st req _ hm]
    unfold handlePOST outerWrap
    simp [hb, hi]
  · intro env st req tok oid e hp ha htok hl hc hm hid he
    rw [fetch_authed env st req tok hp ha htok hl hc,
        dispatch_delete env st req _ hm]
    unfold handleDELETE outerWrap
    simp [hid, he]

/-- C2 amended witness: the conjuncts at concrete inputs — an
all-success environment never leaks an exception; a GET whose `find`
throws "network down", a POST whose body parse throws
"Unexpected end of JSON input", a POST whose `insert` throws
"insert failed", and a DELETE whose `delete` throws "delete failed" each
yield a 500 carrying that message. -/
theorem c2_outer_catch_amended_witness :
    isCaught (fetch envOk [docMilk]
      ⟨"GET", "/api/shopping_list", none, some "key", .error "x"⟩).outcome = true ∧
    (fetch ⟨none, none, some "network down", none, none, none, "c"⟩ []
        ⟨"GET", "/api/shopping_list", none, some "key", .error "x"⟩).outcome =
      .ok (toError "network down" 500) ∧
    (fetch envOk []
        ⟨"POST", "/api/shopping_list", none, some "key",
         .error "Unexpected end of JSON input"⟩).outcome =
      .ok (toError "Unexpected end of JSON input" 500) ∧
    (fetch ⟨none, none, none, some "insert failed", none, none, "c"⟩ []
        ⟨"POST", "/api/shopping_list", none, some "key",
         .ok ⟨.jstr "Milk", .undef, .jstr "1L"⟩⟩).outcome =
      .ok (toError "insert failed" 500) ∧
    (fetch ⟨none, none, none, none, none, some "delete failed", "c"⟩ [docMilk]
        ⟨"DELETE", "/api/shopping_list", some oidA, some "key", .error "x"⟩).outcome =
      .ok (toError "delete failed" 500) := by
  refine ⟨?_, ?_, ?_, ?_, ?_⟩
  · exact c2_outer_catch_amended.1 envOk [docMilk]
      ⟨"GET", "/api/shopping_list", none, some "key", .error "x"⟩ rfl
  · have h := c2_outer_catch_amended.2.2.1
      ⟨none, none, some "network down", none, none, none, "c"⟩ []
      ⟨"GET", "/api/shopping_list", none, some "key", .error "x"⟩
      "key" "network down" (by decide) rfl (by decide) rfl rfl rfl rfl
      (Or.inl rfl)
    simpa using h
  · have h := c2_outer_catch_amended.2.2.2.1 envOk []
      ⟨"POST", "/api/shopping_list", none, some "key",
       .error "Unexpected end of JSON input"⟩
      "key" "Unexpected end of JSON input"
      (by decide) rfl (by decide) rfl rfl rfl rfl
    simpa using h
  · have h := c2_outer_catch_amended.2.2.2.2.1
      ⟨none, none, none, some "insert failed", none, none, "c"⟩ []
      ⟨"POST", "/api/shopping_list", none, some "key",
       .ok ⟨.jstr "Milk", .undef, .jstr "1L"⟩⟩
      "key" "insert failed" ⟨.jstr "Milk", .undef, .jstr "1L"⟩
      (by decide) rfl (by decide) rfl rfl rfl rfl rfl
    simpa using h
  · have h := c2_outer_catch_amended.2.2.2.2.2
      ⟨none, none, none, none, none, some "delete failed", "c"⟩ [docMilk]
      ⟨"DELETE", "/api/shopping_list", some oidA, some "key", .error "x"⟩
      "key" oidA "delete failed"
      (by decide) rfl (by decide) rfl rfl rfl (by decide) rfl
    simpa using h

/-- C4: a PATCH whose identifier parses but matches no stored document
gets a 404 "Document not found" response; the collection state is
unchanged and no update call is made (only login and the lookup). -/
theorem c4_patch_not_found (env : Env) (st : List ShoppingListDoc)
    (req : Request) (tok oid : String)
    (hp : stripTrailingSlash req.pathname = "/api/shopping_list")
    (ha : req.authHeader = some tok) (htok : tok ≠ "")
    (hl : env.loginErr = none) (hc : env.collectionErr = none)
    (hm : req.method = "PATCH")
    (hid : parseObjectId (req.idParam.getD "") = some oid)
    (hf : env.findErr = none)
    (hnone : findOneById st oid = none) :
    (fetch env st req).outcome = .ok (toError "Document not found" 404) ∧
    (fetch env st req).state = st ∧
    (fetch env st req).calls = [.loginC, .findC] := by
  rw [fetch_authed env st req tok hp ha htok hl hc,
      dispatch_patch env st req _ hm]
  unfold handlePATCH outerWrap
  simp [hid, hf, hnone]

/-- C4 witness: PATCH with the well-formed but absent identifier `oidB`
on a collection holding only `docMilk`. -/
theorem c4_patch_not_found_witness :
    (fetch envOk [docMilk]
      ⟨"PATCH", "/api/shopping_list", some oidB, some "key", .error "x"⟩).outcome =
        .ok (toError "Document not found" 404) ∧
    (fetch envOk [docMilk]
      ⟨"PATCH", "/api/shopping_list", some oidB, some "key", .error "x"⟩).state =
        [docMilk] ∧
    (fetch envOk [docMilk]
      ⟨"PATCH", "/api/shopping_list", some oidB, some "key", .error "x"⟩).calls =
        [.loginC, .findC] :=
  c4_patch_not_found envOk [docMilk]
    ⟨"PATCH", "/api/shopping_list", some oidB, some "key", .error "x"⟩
    "key" oidB (by decide) rfl (by decide) rfl rfl rfl (by decide) rfl (by decide)

/-- C6: a GET carrying an identifier that parses replies 200 with the
matching document when one exists and 200 with payload `null` when none
does — never an error in the not-found case. -/
theorem c6_get_by_id (env : Env) (st : List ShoppingListDoc) (req : Request)
    (tok oid : String)
    (hp : stripTrailingSlash req.pathname = "/api/shopping_list")
    (ha : req.authHeader = some tok) (htok : tok ≠ "")
    (hl : env.loginErr = none) (hc : env.collectionErr = none)
    (hm : req.method = "GET")
    (hid : parseObjectId (req.idParam.getD "") = some oid)
    (hf : env.findErr = none) :
    (∀ d, findOneById st oid = some d →
      (fetch env st req).outcome = .ok (reply (.pdoc d))) ∧
    (findOneById st oid = none →
      (fetch env st req).outcome = .ok (reply .pnull)) := by
  have hne : req.idParam.getD "" ≠ "" := by
    intro h
    rw [h] at hid
    have h0 : parseObjectId "" = none := by decide
    rw [h0] at hid
    exact Option.noConfusion hid
  constructor
  · intro d hd
    rw [fetch_authed env st req tok hp ha htok hl hc,
        dispatch_get env st req _ hm]
    unfold handleGET outerWrap
    simp [hne, hid, hf, hd]
  · intro hd
    rw [fetch_authed env st req tok hp ha htok hl hc,
        dispatch_get env st req _ hm]
    unfold handleGET outerWrap
    simp [hne, hid, hf, hd]

/-- C6 witness: GET by `oidA` on a collection holding `docMilk` returns
the document; GET by the same identifier on the empty collection returns
success with payload `null`. -/
theorem c6_get_by_id_witness :
    (fetch envOk [docMilk]
      ⟨"GET", "/api/shopping_list", some oidA, some "key", .error "x"⟩).outcome =
        .ok (reply (.pdoc docMilk)) ∧
    (fetch envOk []
      ⟨"GET", "/api/shopping_list", some oidA, some "key", .error "x"⟩).outcome =
        .ok (reply .pnull) :=
  ⟨(c6_get_by_id envOk [docMilk]
      ⟨"GET", "/api/shopping_list", some oidA, some "key", .error "x"⟩
      "key" oidA (by decide) rfl (by decide) rfl rfl rfl (by decide) rfl).1
      docMilk (by decide),
   (c6_get_by_id envOk []
      ⟨"GET", "/api/shopping_list", some oidA, some "key", .error "x"⟩
      "key" oidA (by decide) rfl (by decide) rfl rfl rfl (by decide) rfl).2 rfl⟩

/-- C10: an authenticated PATCH or DELETE whose `id` query parameter is
absent, empty, or malformed (so that the `ObjectId` constructor throws —
the parameter defaults to the empty string) answers 500, never 404 or
400: PATCH's inner catch yields "Internal Server Error", DELETE's outer
catch surfaces the constructor's message; the collection is untouched. -/
theorem c10_bad_object_id (env : Env) (st : List ShoppingListDoc)
    (req : Request) (tok : String)
    (hp : stripTrailingSlash req.pathname = "/api/shopping_list")
    (ha : req.authHeader = some tok) (htok : tok ≠ "")
    (hl : env.loginErr = none) (hc : env.collectionErr = none)
    (hid : parseObjectId (req.idParam.getD "") = none) :
    (req.method = "PATCH" →
      fetch env st req =
        ⟨.ok (toError "Internal Server Error" 500), st, [.loginC]⟩) ∧
    (req.method = "DELETE" →
      fetch env st req =
        ⟨.ok (toError objectIdErrMsg 500), st, [.loginC]⟩) := by
  constructor
  · intro hm
    rw [fetch_authed env st req tok hp ha htok hl hc,
        dispatch_patch env st req _ hm]
    unfold handlePATCH outerWrap
    simp [hid]
  · intro hm
    rw [fetch_authed env st req tok hp ha htok hl hc,
        dispatch_delete env st req _ hm]
    unfold handleDELETE outerWrap
    have hmsg : objectIdErrMsg ≠ "" := by decide
    simp [hid, hmsg]

/-- C10 witness: PATCH with no `id` parameter and DELETE with the
malformed `id` value "xyz" both answer 500 on a nonempty collection. -/
theorem c10_bad_object_id_witness :
    fetch envOk [docMilk]
      ⟨"PATCH", "/api/shopping_list", none, some "key", .error "x"⟩ =
        ⟨.ok (toError "Internal Server Error" 500), [docMilk], [.loginC]⟩ ∧
    fetch envOk [docMilk]
      ⟨"DELETE", "/api/shopping_list", some "xyz", some "key", .error "x"⟩ =
        ⟨.ok (toError objectIdErrMsg 500), [docMilk], [.loginC]⟩ :=
  ⟨(c10_bad_object_id envOk [docMilk]
      ⟨"PATCH", "/api/shopping_list", none, some "key", .error "x"⟩
      "key" (by decide) rfl (by decide) rfl rfl (by decide)).1 rfl,
   (c10_bad_object_id envOk [docMilk]
      ⟨"DELETE", "/api/shopping_list", some "xyz", some "key", .error "x"⟩
      "key" (by decide) rfl (by decide) rfl rfl (by decide)).2 rfl⟩

/-- C1: the request used in the PUT demonstrations — body
`{"quantity":"2L"}`, so `name` and `purchased` destructure to
`undefined`. -/
def reqPutQty : Request :=
  ⟨"PUT", "/api/shopping_list", some oidA, some "key",
   .ok ⟨.undef, .undef, .jstr "2L"⟩⟩

/-- C1: the update object the PUT branch builds is not the partial one
the claim describes.  The object literal
`{ name, purchased, quantity, _id: undefined }` creates all four keys
unconditionally, so for body `{"quantity":"2L"}` the object passed to
`$set` carries `name`, `purchased` and `_id` with the value `undefined`
alongside `quantity`, differing from the only-defined-fields object of
the spec; applied to a stored document, the update does not leave `name`
and `purchased` unchanged. -/
theorem c1_put_update_object_not_partial :
    mkPutUpdateObject ⟨.undef, .undef, .jstr "2L"⟩ =
      [("name", .undef), ("purchased", .undef),
       ("quantity", .jstr "2L"), ("_id", .undef)] ∧
    specPutUpdateObject ⟨.undef, .undef, .jstr "2L"⟩ =
      [("quantity", .jstr "2L")] ∧
    mkPutUpdateObject ⟨.undef, .undef, .jstr "2L"⟩ ≠
      specPutUpdateObject ⟨.undef, .undef, .jstr "2L"⟩ ∧
    (fetch envOk [docMilk] reqPutQty).state =
      [⟨oidA, .undef, .undef, .jstr "2L"⟩] :=
  ⟨rfl, rfl, by decide, rfl⟩

/-- C3: a POST whose body carries the truthy non-boolean
`purchased: "yes"`. -/
def reqPostYes : Request :=
  ⟨"POST", "/api/shopping_list", none, some "key",
   .ok ⟨.jstr "Milk", .jstr "yes", .jstr "1L"⟩⟩

/-- C3 counterexample: `purchased: purchased || false` keeps a truthy
value as it is, so POSTing `purchased: "yes"` inserts the string `"yes"`
— the inserted `purchased` is not a boolean. -/
theorem c3_post_purchased_not_boolean :
    (fetch envOk [] reqPostYes).state =
      [⟨"cccccccccccccccccccccccc", .jstr "Milk", .jstr "yes", .jstr "1L"⟩] ∧
    JsValue.isBool (.jstr "yes") = false :=
  ⟨rfl, rfl⟩

/-- C3 amended: on a POST that reaches the insert, the inserted
document's `purchased` is the body's value when that value is truthy and
the boolean `false` when it is omitted or falsy — a boolean in the
omitted/falsy case, but in general whatever truthy value the body
carried. -/
theorem c3_post_insert_amended (env : Env) (st : List ShoppingListDoc)
    (req : Request) (tok : String) (b : Body)
    (hp : stripTrailingSlash req.pathname = "/api/shopping_list")
    (ha : req.authHeader = some tok) (htok : tok ≠ "")
    (hl : env.loginErr = none) (hc : env.collectionErr = none)
    (hm : req.method = "POST")
    (hb : req.body = .ok b) (hi : env.insertErr = none) :
    (fetch env st req).state =
      st ++ [⟨env.freshId, b.name,
              if b.purchased.truthy then b.purchased else .jbool false,
              b.quantity⟩] ∧
    (b.purchased.truthy = false →
      (fetch env st req).state =
        st ++ [⟨env.freshId, b.name, .jbool false, b.quantity⟩]) := by
  have h1 : (fetch env st req).state =
      st ++ [⟨env.freshId, b.name,
              if b.purchased.truthy then b.purchased else .jbool false,
              b.quantity⟩] := by
    rw [fetch_authed env st req tok hp ha htok hl hc,
        dispatch_post env st req _ hm]
    unfold handlePOST outerWrap
    simp [hb, hi, JsValue.jsOr]
  refine ⟨h1, fun hf => ?_⟩
  rw [h1, hf]
  simp

/-- C3 amended witness: POST of `{"name":"Milk","quantity":"1L"}` (no
`purchased`) inserts a document with the boolean `purchased: false`. -/
theorem c3_post_insert_amended_witness :
    (fetch envOk []
      ⟨"POST", "/api/shopping_list", none, some "key",
       .ok ⟨.jstr "Milk", .undef, .jstr "1L"⟩⟩).state =
      [⟨"cccccccccccccccccccccccc", .jstr "Milk", .jbool false, .jstr "1L"⟩] := by
  have h := (c3_post_insert_amended envOk []
    ⟨"POST", "/api/shopping_list", none, some "key",
     .ok ⟨.jstr "Milk", .undef, .jstr "1L"⟩⟩
    "key" ⟨.jstr "Milk", .undef, .jstr "1L"⟩
    (by decide) rfl (by decide) rfl rfl rfl rfl rfl).2 rfl
  simpa using h

/-- The `$set` entry written by PATCH leaves the identifier alone — more
generally, `applySet` never rewrites `_id` in this model. -/
theorem applySetField_id (d : ShoppingListDoc) (kv : String × JsValue) :
    (applySetField d kv)._id = d._id := by
  unfold applySetField
  split
  · rfl
  · split
    · rfl
    · split
      · rfl
      · rfl

/-- `applySet` never rewrites the identifier. -/
theorem applySet_id (d : ShoppingListDoc) (obj : List (String × JsValue)) :
    (applySet d obj)._id = d._id := by
  induction obj generalizing d with
  | nil => rfl
  | cons kv rest ih =>
    show (applySet (applySetField d kv) rest)._id = d._id
    rw [ih, applySetField_id]

/-- A `$set` object with the single entry `purchased` is exactly a
`purchased` record update. -/
theorem applySet_purchased (d : ShoppingListDoc) (v : JsValue) :
    applySet d [("purchased", v)] = { d with purchased := v } := rfl

/-- After `updateOne` on a found document, looking the identifier up
again yields the rewritten document. -/
theorem findOneById_updateOneById (st : List ShoppingListDoc) (oid : String)
    (obj : List (String × JsValue)) (d : ShoppingListDoc)
    (h : findOneById st oid = some d) :
    findOneById (updateOneById st oid obj).1 oid = some (applySet d obj) := by
  induction st with
  | nil => exact Option.noConfusion h
  | cons x rest ih =>
    unfold findOneById at h
    unfold updateOneById
    by_cases hx : x._id = oid
    · rw [if_pos hx] at h
      injection h with h
      subst h
      rw [if_pos hx]
      unfold findOneById
      rw [if_pos (applySet_id x obj ▸ hx)]
    · rw [if_neg hx] at h
      rw [if_neg hx]
      unfold findOneById
      rw [if_neg hx]
      exact ih h

/-- The projection of a document on its fields other than `purchased`. -/
def nonPurchasedFields (d : ShoppingListDoc) : String × JsValue × JsValue :=
  (d._id, d.name, d.quantity)

/-- An `updateOne` that sets only `purchased` changes no document's
identifier, `name` or `quantity`, and neither inserts nor removes
documents. -/
theorem updateOneById_purchased_frame (st : List ShoppingListDoc)
    (oid : String) (v : JsValue) :
    ((updateOneById st oid [("purchased", v)]).1).map nonPurchasedFields =
      st.map nonPurchasedFields := by
  induction st with
  | nil => rfl
  | cons x rest ih =>
    unfold updateOneById
    by_cases hx : x._id = oid
    · rw [if_pos hx]
      simp only [List.map_cons]
      rw [applySet_purchased]
      rfl
    · rw [if_neg hx]
      simp only [List.map_cons, List.map]
      rw [ih]

/-- On the PATCH happy path the new collection state is the single-field
`$set` of the negated `purchased` on the found document. -/
theorem fetch_patch_found (env : Env) (st : List ShoppingListDoc)
    (req : Request) (tok oid : String) (d : ShoppingListDoc)
    (hp : stripTrailingSlash req.pathname = "/api/shopping_list")
    (ha : req.authHeader = some tok) (htok : tok ≠ "")
    (hl : env.loginErr = none) (hc : env.collectionErr = none)
    (hm : req.method = "PATCH")
    (hid : parseObjectId (req.idParam.getD "") = some oid)
    (hf : env.findErr = none) (hu : env.updateErr = none)
    (hd : findOneById st oid = some d) :
    (fetch env st req).state =
      (updateOneById st oid
        [("purchased", .jbool (JsValue.jsNot d.purchased))]).1 := by
  rw [fetch_authed env st req tok hp ha htok hl hc,
      dispatch_patch env st req _ hm]
  unfold handlePATCH outerWrap
  simp [hid, hf, hd, hu]

/-- C5: the state and PATCH request of the counterexample run — the
stored document's `purchased` holds the truthy string `"yes"`. -/
def stYes : List ShoppingListDoc := [⟨oidA, .jstr "Milk", .jstr "yes", .jstr "1L"⟩]

/-- C5: PATCH request on `oidA`. -/
def reqPatchA : Request :=
  ⟨"PATCH", "/api/shopping_list", some oidA, some "key", .error "x"⟩

/-- C5 counterexample: on a document whose `purchased` is the truthy
string `"yes"`, two successive successful PATCHes end at the boolean
`true`, not at the original value — the toggle pair is not an involution
on non-boolean `purchased` values (each PATCH writes the boolean
negation of truthiness, so the first write is `false` and the second
`true`). -/
theorem c5_double_patch_not_involutive :
    (fetch envOk ((fetch envOk stYes reqPatchA).state) reqPatchA).state =
      [⟨oidA, .jstr "Milk", .jbool true, .jstr "1L"⟩] ∧
    JsValue.jbool true ≠ JsValue.jstr "yes" :=
  ⟨rfl, by decide⟩

/-- C5 amended: a successful PATCH on any found document writes exactly
one field, setting `purchased` to the boolean negation of its
truthiness, and changes no document's `name`, `quantity` or identifier;
two successive successful PATCHes leave `purchased` at the boolean of
the original value's truthiness — so when the document's `purchased` is
a boolean the original document is restored, and only then. -/
theorem c5_patch_toggle_amended (env : Env) (st : List ShoppingListDoc)
    (req : Request) (tok oid : String) (d : ShoppingListDoc)
    (hp : stripTrailingSlash req.pathname = "/api/shopping_list")
    (ha : req.authHeader = some tok) (htok : tok ≠ "")
    (hl : env.loginErr = none) (hc : env.collectionErr = none)
    (hm : req.method = "PATCH")
    (hid : parseObjectId (req.idParam.getD "") = some oid)
    (hf : env.findErr = none) (hu : env.updateErr = none)
    (hd : findOneById st oid = some d) :
    findOneById (fetch env st req).state oid =
      some { d with purchased := .jbool (!d.purchased.truthy) } ∧
    ((fetch env st req).state).map nonPurchasedFields =
      st.map nonPurchasedFields ∧
    findOneById (fetch env (fetch env st req).state req).state oid =
      some { d with purchased := .jbool d.purchased.truthy } ∧
    (∀ b, d.purchased = .jbool b →
      findOneById (fetch env (fetch env st req).state req).state oid = some d) := by
  have h1 := fetch_patch_found env st req tok oid d hp ha htok hl hc hm hid hf hu hd
  have hfind1 : findOneById (fetch env st req).state oid =
      some { d with purchased := .jbool (!d.purchased.truthy) } := by
    rw [h1, findOneById_updateOneById st oid _ d hd, applySet_purchased]
    rfl
  have h2 := fetch_patch_found env (fetch env st req).state req tok oid
    { d with purchased := .jbool (!d.purchased.truthy) }
    hp ha htok hl hc hm hid hf hu hfind1
  have hfind2 : findOneById (fetch env (fetch env st req).state req).state oid =
      some { d with purchased := .jbool d.purchased.truthy } := by
    rw [h2, findOneById_updateOneById (fetch env st req).state oid _ _ hfind1,
        applySet_purchased]
    simp [JsValue.jsNot, JsValue.truthy]
  refine ⟨hfind1, ?_, hfind2, ?_⟩
  · rw [h1]
    exact updateOneById_purchased_frame st oid _
  · intro b hb
    rw [hfind2, hb]
    cases d with
    | mk i n p q =>
      simp only at hb
      rw [hb]
      simp [JsValue.truthy]

/-- C5 amended witness: PATCH on `docMilk` (`purchased: false`, a
boolean) flips it to `true` while leaving the other fields alone, and a
second PATCH restores the document. -/
theorem c5_patch_toggle_amended_witness :
    findOneById (fetch envOk [docMilk] reqPatchA).state oidA =
      some { docMilk with purchased := .jbool true } ∧
    ((fetch envOk [docMilk] reqPatchA).state).map nonPurchasedFields =
      [docMilk].map nonPurchasedFields ∧
    findOneById (fetch envOk (fetch envOk [docMilk] reqPatchA).state
      reqPatchA).state oidA = some docMilk := by
  have h := c5_patch_toggle_amended envOk [docMilk] reqPatchA "key" oidA
    docMilk (by decide) rfl (by decide) rfl rfl rfl (by decide)
    rfl rfl (by decide)
  exact ⟨by simpa using h.1, h.2.1, h.2.2.2 false rfl⟩

end Worker
